import Mathlib

/-!
Shallow embedding of `src/handler.py` (worker-sglang request handler).

The Python handler validates a job input against the pydantic model
`APIInput`, posts one request to the local SGLang `/generate` endpoint,
and returns an `APIOutput` envelope.  We embed the JSON data the handler
manipulates, the pydantic validation of `APIInput`, the payload
construction with the forced `stream: false` override, the behaviour of
the single `requests.post` / `raise_for_status` / `response.json()` /
`.get("text", "")` block, and the envelope construction on every path.

Modelling conventions:
- JSON values are the inductive `Json`; Python dicts are association
  lists `List (String × Json)` with first-match lookup (Python dict keys
  are unique, so first-match agrees with dict lookup).
- `time.time()` reads are supplied as two integer millisecond timestamps
  in the `World`; `int((end - start) * 1000)` becomes `tEnd - tStart`.
- `os.environ` is a function `String → Option String` in the `World`.
- The downstream HTTP exchange is a `HttpResult` in the `World`: either
  a transport-level failure (a `requests.exceptions.RequestException`
  raised by `requests.post`) or a response with a status code and a body
  (`none` when the body is not valid JSON, in which case
  `response.json()` raises a `JSONDecodeError`, which is a
  `RequestException` and hence caught).
- An uncaught Python exception is the outcome `Outcome.raised`;
  a normal return is `Outcome.ok`.
-/

namespace WorkerSGLang

/-- JSON values, as produced by `response.json()` and as found in the
job input delivered by the hosting runtime. Numbers are modelled as
integers; their exact numeric type is irrelevant to every claim. -/
inductive Json where
  | null : Json
  | bool : Bool → Json
  | num : Int → Json
  | str : String → Json
  | arr : List Json → Json
  | obj : List (String × Json) → Json

/-- First-match lookup in an association list, the embedding of Python
dict indexing / `.get` (dict keys are unique, so first match is the
dict entry). -/
def lookup : List (String × Json) → String → Option Json
  | [], _ => none
  | (k, v) :: rest, key => if k = key then some v else lookup rest key

/-- Python dict-literal update semantics for `{**d, k: v}`: if `k` is
already a key of `d` its value is overwritten in place, otherwise the
pair is appended at the end. -/
def setKey (kvs : List (String × Json)) (k : String) (v : Json) :
    List (String × Json) :=
  if kvs.any (fun p => p.1 = k) then
    kvs.map (fun p => if p.1 = k then (k, v) else p)
  else
    kvs ++ [(k, v)]

/-- The pydantic input model `APIInput` of `handler.py`: a required
text `prompt` and a `sampling_params` dict defaulting to empty. -/
structure APIInput where
  prompt : String
  sampling_params : List (String × Json)

/-- Pydantic validation `APIInput.parse_obj(value)`: the value must be
a dict; `prompt` must be present and a string (pydantic v2 does not
coerce non-strings to `str`); `sampling_params`, when present, must be
a dict and defaults to the empty dict when absent.  On mismatch the
human-readable pydantic error description is returned. -/
def APIInput.parse_obj (v : Json) : Except String APIInput :=
  match v with
  | Json.obj kvs =>
    match lookup kvs "prompt" with
    | some (Json.str p) =>
      match lookup kvs "sampling_params" with
      | none => Except.ok ⟨p, []⟩
      | some (Json.obj ps) => Except.ok ⟨p, ps⟩
      | some _ => Except.error "sampling_params: Input should be a valid dictionary"
    | some _ => Except.error "prompt: Input should be a valid string"
    | none => Except.error "prompt: Field required"
  | _ => Except.error "Input should be a valid dictionary or instance of APIInput"

/-- The pydantic output model `APIOutput` of `handler.py`, after
`model_dump()`: the envelope returned to the hosting runtime.  All six
fields are present on every path by construction of this type. -/
structure APIOutput where
  request_id : String
  model_name : String
  execution_time_ms : Int
  status : String
  text_output : String
  error_message : Option String
deriving DecidableEq

/-- The body of the single downstream POST to `{base_url}/generate`. -/
structure Payload where
  text : String
  sampling_params : List (String × Json)

/-- Payload construction of `handler.py` lines 78-84:
`{"text": prompt, "sampling_params": {**sampling_params, "stream": False}}`. -/
def buildPayload (vi : APIInput) : Payload :=
  ⟨vi.prompt, setKey vi.sampling_params "stream" (Json.bool false)⟩

/-- The observable behaviour of the downstream service for this
invocation's single POST. -/
inductive HttpResult where
  | transportError : String → HttpResult
  | response : Nat → Option Json → HttpResult

/-- Outcome of the inference block (lines 87-93): a caught
`RequestException` with its rendered detail, an uncaught exception, or
the extracted generated text. -/
inductive CallResult where
  | failed : String → CallResult
  | raisedExn : String → CallResult
  | text : String → CallResult

/-- Detail string rendered from the `HTTPError` raised by
`raise_for_status` for a bad status code. -/
def statusDetail (status : Nat) : String :=
  toString status ++ " Error for url /generate"

/-- Detail string rendered from the `JSONDecodeError` raised by
`response.json()` on a non-JSON body (a `RequestException` subclass in
requests, hence caught). -/
def jsonDecodeDetail : String := "Expecting value: line 1 column 1"

/-- Message of the `AttributeError` raised by `.get` when
`response.json()` is not a dict; this escapes the
`except requests.exceptions.RequestException` clause. -/
def attributeErrorDetail : String :=
  "AttributeError: object has no attribute get"

/-- Message of the pydantic `ValidationError` raised when constructing
the success `APIOutput` with a non-string `text_output`; it escapes the
handler uncaught. -/
def textTypeErrorDetail : String :=
  "ValidationError: text_output Input should be a valid string"

/-- The inference block of `handler.py` lines 87-93:
`requests.post` (transport failures raise `RequestException`), then
`raise_for_status()` (raises `HTTPError` exactly for 400 <= status < 600),
then `response.json()` (raises `JSONDecodeError` on a non-JSON body),
then `sglang_response_data.get("text", "")` (raises `AttributeError` on
a non-dict) and later the pydantic `str` check of `text_output`
(raises on a non-string value). -/
def runGenerate : HttpResult → CallResult
  | HttpResult.transportError m => CallResult.failed m
  | HttpResult.response status body =>
    if 400 ≤ status && status < 600 then
      CallResult.failed (statusDetail status)
    else
      match body with
      | none => CallResult.failed jsonDecodeDetail
      | some (Json.obj kvs) =>
        match lookup kvs "text" with
        | none => CallResult.text ""
        | some (Json.str s) => CallResult.text s
        | some _ => CallResult.raisedExn textTypeErrorDetail
      | some _ => CallResult.raisedExn attributeErrorDetail

/-- How one invocation of `handler` ends: a normal return of the dumped
envelope, or a Python exception propagating to the hosting runtime. -/
inductive Outcome where
  | ok : APIOutput → Outcome
  | raised : String → Outcome
deriving DecidableEq

/-- What one invocation observably did: its outcome, and the body of
the downstream POST when one was issued (`none` when validation failed
before any call). -/
structure HandlerResult where
  outcome : Outcome
  sent : Option Payload

/-- The ambient inputs of one invocation: the generated uuid, the two
`time.time()` readings (milliseconds), the process environment, and the
downstream behaviour of the single POST. -/
structure World where
  requestId : String
  tStart : Int
  tEnd : Int
  env : String → Option String
  http : HttpResult

/-- The elapsed-time computation `int((end_time - start_time) * 1000)`
with the two clock readings given in milliseconds. -/
def execMs (w : World) : Int := w.tEnd - w.tStart

/-- The error envelope built on both `except` paths of `handler.py`. -/
def errorEnvelope (rid mn : String) (ems : Int) (msg : String) : APIOutput :=
  { request_id := rid, model_name := mn, execution_time_ms := ems,
    status := "error", text_output := "", error_message := some msg }

/-- The success envelope of `handler.py` lines 111-117; `error_message`
takes its pydantic default `None`. -/
def successEnvelope (rid mn : String) (ems : Int) (txt : String) : APIOutput :=
  { request_id := rid, model_name := mn, execution_time_ms := ems,
    status := "success", text_output := txt, error_message := none }

/-- Detail rendered from the `KeyError` raised by `job['input']` when
the job has no `input` key; it is caught by the validation
`except Exception` clause. -/
def keyErrorDetail : String := "input"

/-- The handler of `handler.py` lines 47-119.  `job` is the job dict
delivered by the hosting runtime; `job['input']` is looked up inside
the validation `try`, so a missing key becomes a validation error. -/
def handler (w : World) (job : List (String × Json)) : HandlerResult :=
  let model_name := (w.env "MODEL_NAME").getD "unknown"
  match lookup job "input" with
  | none =>
    ⟨Outcome.ok (errorEnvelope w.requestId model_name (execMs w)
        ("Input validation failed: " ++ keyErrorDetail)), none⟩
  | some inputVal =>
    match APIInput.parse_obj inputVal with
    | Except.error e =>
      ⟨Outcome.ok (errorEnvelope w.requestId model_name (execMs w)
          ("Input validation failed: " ++ e)), none⟩
    | Except.ok vi =>
      let payload := buildPayload vi
      match runGenerate w.http with
      | CallResult.failed d =>
        ⟨Outcome.ok (errorEnvelope w.requestId model_name (execMs w)
            ("Request to SGLang server failed: " ++ d)), some payload⟩
      | CallResult.raisedExn m => ⟨Outcome.raised m, some payload⟩
      | CallResult.text s =>
        ⟨Outcome.ok (successEnvelope w.requestId model_name (execMs w) s),
          some payload⟩

/-- The model name the envelope carries, when the invocation returned
normally. -/
def modelNameOf (r : HandlerResult) : Option String :=
  match r.outcome with
  | Outcome.ok e => some e.model_name
  | Outcome.raised _ => none

/-- Well-formedness of an envelope, as the spec states it: the status
is one of the two literals, `status = "error"` exactly when
`error_message` is non-null, an error envelope has empty `text_output`,
a success envelope has null `error_message`, and the execution time is
non-negative.  Presence of all six fields is enforced by the type
`APIOutput` itself. -/
def wellFormed (e : APIOutput) : Prop :=
  (e.status = "success" ∨ e.status = "error") ∧
  (e.status = "error" ↔ e.error_message ≠ none) ∧
  (e.status = "error" → e.text_output = "") ∧
  (e.status = "success" → e.error_message = none) ∧
  0 ≤ e.execution_time_ms

/-- Shapes of a downstream exchange on which the inference block does
not raise an uncaught exception: any transport failure, any bad status,
any non-JSON body, and a JSON object body whose `text` field is absent
or a string.  Exactly the non-object 2xx-ish bodies and non-string
`text` fields are excluded. -/
def responseShapeOk : HttpResult → Bool
  | HttpResult.transportError _ => true
  | HttpResult.response status body =>
    if 400 ≤ status && status < 600 then true
    else
      match body with
      | none => true
      | some (Json.obj kvs) =>
        match lookup kvs "text" with
        | none => true
        | some (Json.str _) => true
        | some _ => false
      | some _ => false

/-! Association-list lemmas about `lookup` and `setKey`, the embedding
of `{**sampling_params, "stream": False}`. -/

theorem lookup_nil (key : String) : lookup [] key = none := rfl

theorem lookup_cons (k1 : String) (v1 : Json) (t : List (String × Json))
    (key : String) :
    lookup ((k1, v1) :: t) key = if k1 = key then some v1 else lookup t key := rfl

theorem lookup_map_set (k : String) (v : Json) :
    ∀ l : List (String × Json), (l.any fun p => p.1 = k) = true →
      lookup (l.map fun p => if p.1 = k then (k, v) else p) k = some v := by
  intro l
  induction l with
  | nil => intro h; simp at h
  | cons p t ih =>
    obtain ⟨k1, v1⟩ := p
    intro h
    by_cases hp : k1 = k
    · subst hp
      simp [lookup_cons]
    · simp only [List.any_cons] at h
      simp only [hp, decide_eq_false, Bool.false_or] at h
      simp [lookup_cons, hp, ih h]

theorem lookup_append_set (k : String) (v : Json) :
    ∀ l : List (String × Json), (l.any fun p => p.1 = k) = false →
      lookup (l ++ [(k, v)]) k = some v := by
  intro l
  induction l with
  | nil => intro _; simp [lookup_cons]
  | cons p t ih =>
    obtain ⟨k1, v1⟩ := p
    intro h
    simp only [List.any_cons, Bool.or_eq_false_iff, decide_eq_false_iff_not] at h
    simp [List.cons_append, lookup_cons, h.1, ih (by simpa using h.2)]

theorem lookup_map_set_ne (k k2 : String) (v : Json) (hne : k2 ≠ k) :
    ∀ l : List (String × Json),
      lookup (l.map fun p => if p.1 = k then (k, v) else p) k2 = lookup l k2 := by
  intro l
  induction l with
  | nil => rfl
  | cons p t ih =>
    obtain ⟨k1, v1⟩ := p
    by_cases hp : k1 = k
    · subst hp
      simp [lookup_cons, Ne.symm hne, ih]
    · simp [lookup_cons, hp, ih]

theorem lookup_append_ne (k k2 : String) (v : Json) (hne : k2 ≠ k) :
    ∀ l : List (String × Json),
      lookup (l ++ [(k, v)]) k2 = lookup l k2 := by
  intro l
  induction l with
  | nil => simp [lookup_nil, lookup_cons, Ne.symm hne]
  | cons p t ih =>
    obtain ⟨k1, v1⟩ := p
    simp [List.cons_append, lookup_cons, ih]

theorem lookup_setKey_self (l : List (String × Json)) (k : String) (v : Json) :
    lookup (setKey l k v) k = some v := by
  unfold setKey
  split
  · next hcond => exact lookup_map_set k v l hcond
  · next hcond => exact lookup_append_set k v l (Bool.eq_false_iff.mpr hcond)

theorem lookup_setKey_ne (l : List (String × Json)) (k k2 : String) (v : Json)
    (hne : k2 ≠ k) :
    lookup (setKey l k v) k2 = lookup l k2 := by
  unfold setKey
  split
  · exact lookup_map_set_ne k k2 v hne l
  · exact lookup_append_ne k k2 v hne l

/-! Structural lemmas describing `handler` on each of its five paths. -/

theorem handler_input_missing (w : World) (job : List (String × Json))
    (h : lookup job "input" = none) :
    handler w job =
      ⟨Outcome.ok (errorEnvelope w.requestId ((w.env "MODEL_NAME").getD "unknown")
          (execMs w) ("Input validation failed: " ++ keyErrorDetail)), none⟩ := by
  simp only [handler, h]

theorem handler_parse_error (w : World) (job : List (String × Json))
    (inputVal : Json) (msg : String)
    (hin : lookup job "input" = some inputVal)
    (hv : APIInput.parse_obj inputVal = Except.error msg) :
    handler w job =
      ⟨Outcome.ok (errorEnvelope w.requestId ((w.env "MODEL_NAME").getD "unknown")
          (execMs w) ("Input validation failed: " ++ msg)), none⟩ := by
  simp only [handler, hin, hv]

theorem handler_call_failed (w : World) (job : List (String × Json))
    (inputVal : Json) (vi : APIInput) (d : String)
    (hin : lookup job "input" = some inputVal)
    (hv : APIInput.parse_obj inputVal = Except.ok vi)
    (hg : runGenerate w.http = CallResult.failed d) :
    handler w job =
      ⟨Outcome.ok (errorEnvelope w.requestId ((w.env "MODEL_NAME").getD "unknown")
          (execMs w) ("Request to SGLang server failed: " ++ d)),
        some (buildPayload vi)⟩ := by
  simp only [handler, hin, hv, hg]

theorem handler_call_raised (w : World) (job : List (String × Json))
    (inputVal : Json) (vi : APIInput) (m : String)
    (hin : lookup job "input" = some inputVal)
    (hv : APIInput.parse_obj inputVal = Except.ok vi)
    (hg : runGenerate w.http = CallResult.raisedExn m) :
    handler w job = ⟨Outcome.raised m, some (buildPayload vi)⟩ := by
  simp only [handler, hin, hv, hg]

theorem handler_call_text (w : World) (job : List (String × Json))
    (inputVal : Json) (vi : APIInput) (s : String)
    (hin : lookup job "input" = some inputVal)
    (hv : APIInput.parse_obj inputVal = Except.ok vi)
    (hg : runGenerate w.http = CallResult.text s) :
    handler w job =
      ⟨Outcome.ok (successEnvelope w.requestId ((w.env "MODEL_NAME").getD "unknown")
          (execMs w) s), some (buildPayload vi)⟩ := by
  simp only [handler, hin, hv, hg]

/-- Every normally-returned envelope is either an error envelope or a
success envelope, built with this invocation's request id, resolved
model name and elapsed time. -/
theorem handler_ok_shape (w : World) (job : List (String × Json)) (e : APIOutput)
    (h : (handler w job).outcome = Outcome.ok e) :
    (∃ msg, e = errorEnvelope w.requestId ((w.env "MODEL_NAME").getD "unknown")
        (execMs w) msg) ∨
    (∃ s, e = successEnvelope w.requestId ((w.env "MODEL_NAME").getD "unknown")
        (execMs w) s) := by
  cases hin : lookup job "input" with
  | none =>
    rw [handler_input_missing w job hin] at h
    exact Or.inl ⟨_, (Outcome.ok.inj h).symm⟩
  | some inputVal =>
    cases hv : APIInput.parse_obj inputVal with
    | error msg =>
      rw [handler_parse_error w job inputVal msg hin hv] at h
      exact Or.inl ⟨_, (Outcome.ok.inj h).symm⟩
    | ok vi =>
      cases hg : runGenerate w.http with
      | failed d =>
        rw [handler_call_failed w job inputVal vi d hin hv hg] at h
        exact Or.inl ⟨_, (Outcome.ok.inj h).symm⟩
      | raisedExn m =>
        rw [handler_call_raised w job inputVal vi m hin hv hg] at h
        exact absurd h (by simp)
      | text s =>
        rw [handler_call_text w job inputVal vi s hin hv hg] at h
        exact Or.inr ⟨_, (Outcome.ok.inj h).symm⟩

/-- The model name of every normally-returned envelope is the value of
the `MODEL_NAME` environment variable at this invocation, defaulting to
`"unknown"` (line 54 of `handler.py` runs inside `handler`). -/
theorem modelName_of_ok (w : World) (job : List (String × Json)) (e : APIOutput)
    (h : (handler w job).outcome = Outcome.ok e) :
    e.model_name = (w.env "MODEL_NAME").getD "unknown" := by
  rcases handler_ok_shape w job e h with ⟨msg, rfl⟩ | ⟨s, rfl⟩ <;> rfl

/-- When the prompt key is missing or its value is not a string,
pydantic validation fails. -/
theorem parse_obj_fails_of_bad_prompt (kvs : List (String × Json))
    (hbad : lookup kvs "prompt" = none ∨
      ∃ v, lookup kvs "prompt" = some v ∧ ∀ s, v ≠ Json.str s) :
    ∃ msg, APIInput.parse_obj (Json.obj kvs) = Except.error msg := by
  rcases hbad with h | ⟨v, hv, hns⟩
  · refine ⟨"prompt: Field required", ?_⟩
    simp only [APIInput.parse_obj, h]
  · refine ⟨"prompt: Input should be a valid string", ?_⟩
    cases v with
    | str s => exact absurd rfl (hns s)
    | null => simp only [APIInput.parse_obj, hv]
    | bool b => simp only [APIInput.parse_obj, hv]
    | num n => simp only [APIInput.parse_obj, hv]
    | arr xs => simp only [APIInput.parse_obj, hv]
    | obj o => simp only [APIInput.parse_obj, hv]

/-- On a well-shaped exchange the inference block either catches its
exception (a `failed` detail) or extracts text; it never lets an
exception escape. -/
theorem runGenerate_no_raise (h : HttpResult) (hs : responseShapeOk h = true) :
    (∃ d, runGenerate h = CallResult.failed d) ∨
    (∃ s, runGenerate h = CallResult.text s) := by
  cases h with
  | transportError m => exact Or.inl ⟨m, rfl⟩
  | response status body =>
    by_cases hbad : (400 ≤ status && status < 600) = true
    · exact Or.inl ⟨statusDetail status, by simp only [runGenerate, if_pos hbad]⟩
    · cases body with
      | none =>
        exact Or.inl ⟨jsonDecodeDetail, by simp only [runGenerate, if_neg hbad]⟩
      | some j =>
        cases j with
        | obj kvs =>
          cases ht : lookup kvs "text" with
          | none =>
            exact Or.inr ⟨"", by simp only [runGenerate, if_neg hbad, ht]⟩
          | some tv =>
            cases tv with
            | str s =>
              exact Or.inr ⟨s, by simp only [runGenerate, if_neg hbad, ht]⟩
            | null =>
              simp only [responseShapeOk, if_neg hbad, ht] at hs
              exact absurd hs (by decide)
            | bool b =>
              simp only [responseShapeOk, if_neg hbad, ht] at hs
              exact absurd hs (by decide)
            | num n =>
              simp only [responseShapeOk, if_neg hbad, ht] at hs
              exact absurd hs (by decide)
            | arr xs =>
              simp only [responseShapeOk, if_neg hbad, ht] at hs
              exact absurd hs (by decide)
            | obj o =>
              simp only [responseShapeOk, if_neg hbad, ht] at hs
              exact absurd hs (by decide)
        | null =>
          simp only [responseShapeOk, if_neg hbad] at hs
          exact absurd hs (by decide)
        | bool b =>
          simp only [responseShapeOk, if_neg hbad] at hs
          exact absurd hs (by decide)
        | num n =>
          simp only [responseShapeOk, if_neg hbad] at hs
          exact absurd hs (by decide)
        | str str2 =>
          simp only [responseShapeOk, if_neg hbad] at hs
          exact absurd hs (by decide)
        | arr xs =>
          simp only [responseShapeOk, if_neg hbad] at hs
          exact absurd hs (by decide)

/-- The two envelope builders produce well-formed envelopes whenever
the elapsed time is non-negative. -/
theorem errorEnvelope_wellFormed (rid mn : String) (ems : Int) (msg : String)
    (h : 0 ≤ ems) : wellFormed (errorEnvelope rid mn ems msg) := by
  simp [wellFormed, errorEnvelope, h]

theorem successEnvelope_wellFormed (rid mn : String) (ems : Int) (txt : String)
    (h : 0 ≤ ems) : wellFormed (successEnvelope rid mn ems txt) := by
  simp [wellFormed, successEnvelope, h]

/-! Claim theorems. -/

/-- Claim C1 counterexample: the claim says the handler returns a value
normally for every downstream response, including any JSON shape of the
body.  It is false: with a 2xx response whose JSON body is an array,
`response.json().get("text", "")` raises an `AttributeError` that the
`except requests.exceptions.RequestException` clause does not catch, so
the exception propagates to the hosting runtime. -/
theorem C1_counterexample_array_body_raises :
    (handler ⟨"rid", 0, 5, fun _ => none,
        HttpResult.response 200 (some (Json.arr []))⟩
      [("input", Json.obj [("prompt", Json.str "hi")])]).outcome
      = Outcome.raised attributeErrorDetail := rfl

/-- Claim C1 (amended): for every job input and every downstream
exchange whose parsed JSON body, when one is reached without
`raise_for_status` firing, is an object whose optional `text` field is
a string, the handler returns an envelope normally; all failure
conditions on such exchanges (missing input key, validation failure,
transport error, 4xx/5xx status, non-JSON body) are captured into the
error envelope. -/
theorem C1_amended_no_uncaught_exception (w : World)
    (job : List (String × Json)) (h : responseShapeOk w.http = true) :
    ∃ e, (handler w job).outcome = Outcome.ok e := by
  cases hin : lookup job "input" with
  | none => exact ⟨_, by rw [handler_input_missing w job hin]⟩
  | some inputVal =>
    cases hv : APIInput.parse_obj inputVal with
    | error msg =>
      exact ⟨_, by rw [handler_parse_error w job inputVal msg hin hv]⟩
    | ok vi =>
      rcases runGenerate_no_raise w.http h with ⟨d, hg⟩ | ⟨s, hg⟩
      · exact ⟨_, by rw [handler_call_failed w job inputVal vi d hin hv hg]⟩
      · exact ⟨_, by rw [handler_call_text w job inputVal vi s hin hv hg]⟩

/-- Claim C1 (amended) witness at a concrete transport failure. -/
theorem C1_amended_witness :
    responseShapeOk (HttpResult.transportError "connection refused") = true ∧
    ∃ e, (handler ⟨"rid", 0, 5, fun _ => none,
        HttpResult.transportError "connection refused"⟩
      [("input", Json.obj [("prompt", Json.str "hi")])]).outcome
        = Outcome.ok e :=
  ⟨rfl, C1_amended_no_uncaught_exception _ _ rfl⟩

/-- Claim C2: for every input that passes validation, the downstream
POST body is `{"text": prompt, "sampling_params": {**callerParams,
"stream": false}}`: the `stream` key is `false` in the sent body
regardless of any caller-supplied value under that key, and every other
caller-supplied key/value is preserved unchanged. -/
theorem C2_payload_stream_override (w : World) (job : List (String × Json))
    (inputVal : Json) (vi : APIInput)
    (hin : lookup job "input" = some inputVal)
    (hv : APIInput.parse_obj inputVal = Except.ok vi) :
    (handler w job).sent =
      some ⟨vi.prompt, setKey vi.sampling_params "stream" (Json.bool false)⟩ ∧
    lookup (setKey vi.sampling_params "stream" (Json.bool false)) "stream" =
      some (Json.bool false) ∧
    ∀ k, k ≠ "stream" →
      lookup (setKey vi.sampling_params "stream" (Json.bool false)) k =
        lookup vi.sampling_params k := by
  refine ⟨?_, lookup_setKey_self _ _ _, fun k hk => lookup_setKey_ne _ _ _ _ hk⟩
  cases hg : runGenerate w.http with
  | failed d =>
    rw [handler_call_failed w job inputVal vi d hin hv hg]
    rfl
  | raisedExn m =>
    rw [handler_call_raised w job inputVal vi m hin hv hg]
    rfl
  | text s =>
    rw [handler_call_text w job inputVal vi s hin hv hg]
    rfl

/-- Claim C2 witness: caller sends `stream: true` and a second
parameter; the sent body has `stream: false` and keeps the other
parameter. -/
theorem C2_witness :
    (handler ⟨"rid", 0, 5, fun _ => none, HttpResult.transportError "down"⟩
        [("input", Json.obj [("prompt", Json.str "Say hi"),
          ("sampling_params", Json.obj [("stream", Json.bool true),
            ("temperature", Json.num 7)])])]).sent =
      some ⟨"Say hi", setKey [("stream", Json.bool true), ("temperature", Json.num 7)]
          "stream" (Json.bool false)⟩ ∧
    lookup (setKey [("stream", Json.bool true), ("temperature", Json.num 7)]
        "stream" (Json.bool false)) "stream" = some (Json.bool false) ∧
    lookup (setKey [("stream", Json.bool true), ("temperature", Json.num 7)]
        "stream" (Json.bool false)) "temperature" =
      lookup [("stream", Json.bool true), ("temperature", Json.num 7)]
        "temperature" := by
  have h := C2_payload_stream_override
    ⟨"rid", 0, 5, fun _ => none, HttpResult.transportError "down"⟩
    [("input", Json.obj [("prompt", Json.str "Say hi"),
      ("sampling_params", Json.obj [("stream", Json.bool true),
        ("temperature", Json.num 7)])])]
    (Json.obj [("prompt", Json.str "Say hi"),
      ("sampling_params", Json.obj [("stream", Json.bool true),
        ("temperature", Json.num 7)])])
    ⟨"Say hi", [("stream", Json.bool true), ("temperature", Json.num 7)]⟩
    rfl rfl
  exact ⟨h.1, h.2.1, h.2.2 "temperature" (by decide)⟩

/-- Claim C3 counterexample: the claim says any non-2xx status collapses
into the error envelope.  It is false: `raise_for_status` only raises
for 4xx/5xx, so a 300 response with a JSON object body yields a success
envelope. -/
theorem C3_counterexample_redirect_status :
    (handler ⟨"rid", 0, 5, fun _ => none,
        HttpResult.response 300 (some (Json.obj [("text", Json.str "hi")]))⟩
      [("input", Json.obj [("prompt", Json.str "p")])]).outcome
      = Outcome.ok ⟨"rid", "unknown", 5, "success", "hi", none⟩ := rfl

/-- Claim C3 (amended): a transport-level failure or any 4xx/5xx status
collapses into the same error outcome: `status="error"`, empty
`text_output`, and an `error_message` starting with
`"Request to SGLang server failed: "` carrying the detail. -/
theorem C3_amended_downstream_failure (w : World) (job : List (String × Json))
    (inputVal : Json) (vi : APIInput)
    (hin : lookup job "input" = some inputVal)
    (hv : APIInput.parse_obj inputVal = Except.ok vi)
    (hfail : (∃ m, w.http = HttpResult.transportError m) ∨
      (∃ status body, w.http = HttpResult.response status body ∧
        400 ≤ status ∧ status < 600)) :
    ∃ e, (handler w job).outcome = Outcome.ok e ∧ e.status = "error" ∧
      e.text_output = "" ∧
      ∃ d, e.error_message = some ("Request to SGLang server failed: " ++ d) := by
  have hg : ∃ d, runGenerate w.http = CallResult.failed d := by
    rcases hfail with ⟨m, hm⟩ | ⟨status, body, hw, h1, h2⟩
    · refine ⟨m, ?_⟩
      rw [hm]
      rfl
    · refine ⟨statusDetail status, ?_⟩
      rw [hw]
      simp only [runGenerate]
      rw [if_pos (by simp [h1, h2])]
  obtain ⟨d, hg⟩ := hg
  rw [handler_call_failed w job inputVal vi d hin hv hg]
  exact ⟨_, rfl, rfl, rfl, d, rfl⟩

/-- Claim C3 (amended) witness at a concrete transport failure. -/
theorem C3_witness :
    ∃ e, (handler ⟨"rid", 0, 3, fun _ => none,
        HttpResult.transportError "conn refused"⟩
      [("input", Json.obj [("prompt", Json.str "p")])]).outcome
        = Outcome.ok e ∧
      e.status = "error" ∧ e.text_output = "" ∧
      ∃ d, e.error_message = some ("Request to SGLang server failed: " ++ d) :=
  C3_amended_downstream_failure _ _ _ ⟨"p", []⟩ rfl rfl
    (Or.inl ⟨"conn refused", rfl⟩)

/-- Claim C4: for every job input whose input mapping is missing the
prompt key, or whose prompt value is not text, validation fails and the
handler returns an envelope with `status="error"`, empty `text_output`,
and an `error_message` starting with `"Input validation failed:"`;
no downstream call is made. -/
theorem C4_validation_failure (w : World) (job : List (String × Json))
    (kvs : List (String × Json))
    (hin : lookup job "input" = some (Json.obj kvs))
    (hbad : lookup kvs "prompt" = none ∨
      ∃ v, lookup kvs "prompt" = some v ∧ ∀ s, v ≠ Json.str s) :
    (∃ e, (handler w job).outcome = Outcome.ok e ∧ e.status = "error" ∧
      e.text_output = "" ∧
      ∃ d, e.error_message = some ("Input validation failed: " ++ d)) ∧
    (handler w job).sent = none := by
  obtain ⟨msg, hmsg⟩ := parse_obj_fails_of_bad_prompt kvs hbad
  rw [handler_parse_error w job (Json.obj kvs) msg hin hmsg]
  exact ⟨⟨_, rfl, rfl, rfl, msg, rfl⟩, rfl⟩

/-- Claim C4 witness at a concrete input with no prompt key. -/
theorem C4_witness :
    (∃ e, (handler ⟨"rid", 0, 0, fun _ => none, HttpResult.transportError "down"⟩
        [("input", Json.obj [])]).outcome = Outcome.ok e ∧ e.status = "error" ∧
      e.text_output = "" ∧
      ∃ d, e.error_message = some ("Input validation failed: " ++ d)) ∧
    (handler ⟨"rid", 0, 0, fun _ => none, HttpResult.transportError "down"⟩
        [("input", Json.obj [])]).sent = none :=
  C4_validation_failure _ _ [] rfl (Or.inl rfl)

/-- Claim C5: when the downstream call succeeds (2xx) with a JSON
object body, a string `text` field becomes the success envelope's
`text_output` with `error_message` null, and an absent `text` field
degrades to an empty `text_output`, still a success. -/
theorem C5_success_extraction (w : World) (job : List (String × Json))
    (inputVal : Json) (vi : APIInput) (status : Nat)
    (kvs : List (String × Json))
    (hin : lookup job "input" = some inputVal)
    (hv : APIInput.parse_obj inputVal = Except.ok vi)
    (hb : w.http = HttpResult.response status (some (Json.obj kvs)))
    (h2 : 200 ≤ status) (h3 : status < 300) :
    (∀ s, lookup kvs "text" = some (Json.str s) →
      ∃ e, (handler w job).outcome = Outcome.ok e ∧ e.status = "success" ∧
        e.text_output = s ∧ e.error_message = none) ∧
    (lookup kvs "text" = none →
      ∃ e, (handler w job).outcome = Outcome.ok e ∧ e.status = "success" ∧
        e.text_output = "" ∧ e.error_message = none) := by
  have hnotbad : ¬ (400 ≤ status && status < 600) = true := by
    simp only [Bool.and_eq_true, decide_eq_true_eq]
    rintro ⟨h4, _⟩
    omega
  constructor
  · intro s ht
    have hg : runGenerate w.http = CallResult.text s := by
      rw [hb]
      simp only [runGenerate, if_neg hnotbad, ht]
    rw [handler_call_text w job inputVal vi s hin hv hg]
    exact ⟨_, rfl, rfl, rfl, rfl⟩
  · intro ht
    have hg : runGenerate w.http = CallResult.text "" := by
      rw [hb]
      simp only [runGenerate, if_neg hnotbad, ht]
    rw [handler_call_text w job inputVal vi "" hin hv hg]
    exact ⟨_, rfl, rfl, rfl, rfl⟩

/-- Claim C5 witness: downstream body `{"text": "hello world"}` with
status 200 yields a success envelope carrying that text. -/
theorem C5_witness :
    ∃ e, (handler ⟨"rid", 0, 7, fun _ => none,
        HttpResult.response 200
          (some (Json.obj [("text", Json.str "hello world")]))⟩
      [("input", Json.obj [("prompt", Json.str "p")])]).outcome
        = Outcome.ok e ∧
      e.status = "success" ∧ e.text_output = "hello world" ∧
      e.error_message = none :=
  (C5_success_extraction
    ⟨"rid", 0, 7, fun _ => none,
      HttpResult.response 200
        (some (Json.obj [("text", Json.str "hello world")]))⟩
    [("input", Json.obj [("prompt", Json.str "p")])]
    (Json.obj [("prompt", Json.str "p")])
    ⟨"p", []⟩ 200 [("text", Json.str "hello world")]
    rfl rfl rfl (by decide) (by decide)).1 "hello world" rfl

/-- Claim C6: every envelope the handler returns, on the success path
and on both error paths, satisfies the same well-formedness predicate;
the hypothesis `tStart ≤ tEnd` models that the wall clock does not run
backwards between the two `time.time()` reads. -/
theorem C6_envelope_wellFormed (w : World) (job : List (String × Json))
    (hclock : w.tStart ≤ w.tEnd) (e : APIOutput)
    (h : (handler w job).outcome = Outcome.ok e) :
    wellFormed e := by
  have h0 : 0 ≤ execMs w := sub_nonneg.mpr hclock
  rcases handler_ok_shape w job e h with ⟨msg, rfl⟩ | ⟨s, rfl⟩
  · exact errorEnvelope_wellFormed _ _ _ _ h0
  · exact successEnvelope_wellFormed _ _ _ _ h0

/-- Claim C6 witness at a concrete successful invocation. -/
theorem C6_witness :
    wellFormed ⟨"rid", "unknown", 1, "success", "hi", none⟩ :=
  C6_envelope_wellFormed
    ⟨"rid", 0, 1, fun _ => none,
      HttpResult.response 200 (some (Json.obj [("text", Json.str "hi")]))⟩
    [("input", Json.obj [("prompt", Json.str "p")])]
    (by decide) ⟨"rid", "unknown", 1, "success", "hi", none⟩ rfl

/-- Claim C7 counterexample: the claim says `model_name` is resolved
once at process scope and is independent of environment changes between
invocations.  It is false: line 54 reads `MODEL_NAME` inside `handler`,
so two invocations in the same process whose environments differ return
different `model_name` values. -/
theorem C7_counterexample_env_change :
    modelNameOf (handler ⟨"r1", 0, 0,
        fun k => if k = "MODEL_NAME" then some "modelA" else none,
        HttpResult.transportError "down"⟩
      [("input", Json.obj [("prompt", Json.str "p")])]) = some "modelA" ∧
    modelNameOf (handler ⟨"r2", 0, 0,
        fun k => if k = "MODEL_NAME" then some "modelB" else none,
        HttpResult.transportError "down"⟩
      [("input", Json.obj [("prompt", Json.str "p")])]) = some "modelB" ∧
    ("modelA" : String) ≠ "modelB" := ⟨rfl, rfl, by decide⟩

/-- Claim C7 (amended): `model_name` is resolved from the `MODEL_NAME`
environment variable at each invocation (defaulting to `"unknown"`), so
it is constant across invocations exactly when the environment value is
unchanged; each returned envelope carries that invocation's resolved
value. -/
theorem C7_amended_model_name_per_invocation (w : World)
    (job : List (String × Json)) (e : APIOutput)
    (h : (handler w job).outcome = Outcome.ok e) :
    e.model_name = (w.env "MODEL_NAME").getD "unknown" :=
  modelName_of_ok w job e h

/-- Claim C7 (amended) witness at a concrete invocation. -/
theorem C7_amended_witness :
    (⟨"rid", "unknown", 0, "error", "",
        some "Request to SGLang server failed: down"⟩ : APIOutput).model_name =
      ((fun _ : String => (none : Option String)) "MODEL_NAME").getD "unknown" :=
  C7_amended_model_name_per_invocation
    ⟨"rid", 0, 0, fun _ => none, HttpResult.transportError "down"⟩
    [("input", Json.obj [("prompt", Json.str "p")])] _ rfl

/-- Claim C8 counterexample: the claim says validation rejects an empty
prompt.  It is false: the pydantic field `prompt: str` carries no
non-empty constraint, so the empty string validates and the handler
proceeds to the downstream call. -/
theorem C8_counterexample_empty_prompt_accepted :
    APIInput.parse_obj (Json.obj [("prompt", Json.str "")]) =
      Except.ok ⟨"", []⟩ ∧
    (handler ⟨"rid", 0, 0, fun _ => none, HttpResult.transportError "down"⟩
        [("input", Json.obj [("prompt", Json.str "")])]).sent =
      some ⟨"", [("stream", Json.bool false)]⟩ := ⟨rfl, rfl⟩

/-- Claim C8 (amended): validation accepts a prompt exactly when it is
present and text-typed; any string, including the empty string, is
accepted. -/
theorem C8_amended_prompt_type_only (s : String) :
    APIInput.parse_obj (Json.obj [("prompt", Json.str s)]) =
      Except.ok ⟨s, []⟩ := rfl

/-- Claim C9: for every valid input, validation preserves the prompt
verbatim; a missing `sampling_params` key defaults to the empty
mapping, and a present mapping is accepted with its keys and values
unchanged. -/
theorem C9_validate_preserves (kvs : List (String × Json)) (s : String)
    (hp : lookup kvs "prompt" = some (Json.str s)) :
    (lookup kvs "sampling_params" = none →
      APIInput.parse_obj (Json.obj kvs) = Except.ok ⟨s, []⟩) ∧
    (∀ ps, lookup kvs "sampling_params" = some (Json.obj ps) →
      APIInput.parse_obj (Json.obj kvs) = Except.ok ⟨s, ps⟩) := by
  constructor
  · intro hsp
    simp only [APIInput.parse_obj, hp, hsp]
  · intro ps hsp
    simp only [APIInput.parse_obj, hp, hsp]

/-- Claim C9 witness at a concrete input with sampling params. -/
theorem C9_witness :
    APIInput.parse_obj (Json.obj [("prompt", Json.str "Say hi"),
        ("sampling_params", Json.obj [("max_new_tokens", Json.num 5)])]) =
      Except.ok ⟨"Say hi", [("max_new_tokens", Json.num 5)]⟩ :=
  (C9_validate_preserves [("prompt", Json.str "Say hi"),
      ("sampling_params", Json.obj [("max_new_tokens", Json.num 5)])]
    "Say hi" rfl).2 [("max_new_tokens", Json.num 5)] rfl

/-- Claim C10: when the `MODEL_NAME` environment variable is unset at
the time the handler runs, the returned envelope's `model_name` is the
literal `"unknown"` on every path. -/
theorem C10_model_name_unknown_default (w : World)
    (job : List (String × Json)) (e : APIOutput)
    (henv : w.env "MODEL_NAME" = none)
    (h : (handler w job).outcome = Outcome.ok e) :
    e.model_name = "unknown" := by
  rw [modelName_of_ok w job e h, henv]
  rfl

/-- Claim C10 witness at a concrete invocation with an empty
environment. -/
theorem C10_witness :
    (⟨"rid", "unknown", 0, "error", "",
        some "Input validation failed: prompt: Field required"⟩
      : APIOutput).model_name = "unknown" :=
  C10_model_name_unknown_default
    ⟨"rid", 0, 0, fun _ => none, HttpResult.transportError "down"⟩
    [("input", Json.obj [])] _ rfl rfl

end WorkerSGLang
